import Mathlib

/-!
Verification of the runtime bootstrap of the OTRS MCP server
(`src/otrs_mcp/main.py`): CLI/environment resolution of transport, host
and port, environment validation, and the start-up decision.

The Python module is embedded shallowly: the process environment is a
finite association list, CLI parsing models the `argparse` parser built
in `parse_cli_args` (flags `--transport`, `--host`, `--port`, with
`choices` on the transport and `type=int` on the port), diagnostic
output is collected as a list of printed strings, and the three possible
fates of the process (argparse usage error, `sys.exit(1)` after failed
validation, server started) form an inductive outcome type.
-/

namespace OtrsMcp

/-- The process environment: an association list from variable names to
values, looked up by first match, as `os.environ` behaves for a fixed
snapshot. An absent name models an unset variable. -/
def Env : Type := List (String × String)

/-- `os.getenv(name)`: the value of the first binding of `name`, or
`none` when unset. -/
def getenv (env : Env) (name : String) : Option String :=
  (List.find? (fun p => p.fst == name) env).map (fun p => p.snd)

/-- Python truthiness of `os.getenv(name)` as used in `if value:` tests:
`none` when the variable is unset or set to the empty string, otherwise
the (non-empty) value. -/
def envTruthy (env : Env) (name : String) : Option String :=
  match getenv env name with
  | none => none
  | some v => if v = "" then none else some v

/-- Python `a or b` on an optional string against a string default:
a set, non-empty value wins, otherwise the fallback. -/
def orStr (a : Option String) (b : String) : String :=
  match a with
  | none => b
  | some v => if v = "" then b else v

/-- `VALID_TRANSPORTS` from the source (a Python set; listed here in the
source's literal order). -/
def VALID_TRANSPORTS : List String := ["stdio", "sse", "streamable-http"]

/-- `sorted(VALID_TRANSPORTS)`: the argparse `choices` list for
`--transport`. -/
def sortedTransports : List String := ["sse", "stdio", "streamable-http"]

/-- `DEFAULT_HTTP_HOST` from the source. -/
def DEFAULT_HTTP_HOST : String := "127.0.0.1"

/-- `DEFAULT_HTTP_PORT` from the source. -/
def DEFAULT_HTTP_PORT : Int := 8000

/-- Whitespace stripped by Python `str.strip()` (ASCII subset; exotic
Unicode whitespace is not modelled). -/
def isPySpace (c : Char) : Bool :=
  c = ' ' || c = '\t' || c = '\n' || c = '\x0d' || c = '\x0b' || c = '\x0c'

/-- ASCII decimal digit. -/
def isDigit (c : Char) : Bool := '0' ≤ c && c ≤ '9'

/-- Value of a list of decimal digits, most significant first. -/
def digitsVal (l : List Char) : Nat :=
  l.foldl (fun a c => a * 10 + (c.toNat - 48)) 0

/-- After the first digit of a Python integer literal, every character
is a digit or a single underscore followed by a digit. -/
def numTailOk : List Char → Bool
  | [] => true
  | c :: rest =>
    if c = '_' then
      match rest with
      | [] => false
      | d :: rest2 => isDigit d && numTailOk (d :: rest2)
    else
      isDigit c && numTailOk rest

/-- Parse an unsigned run of digits with Python's underscore grouping;
`none` when the run is empty or malformed. -/
def natOfDigits (l : List Char) : Option Nat :=
  match l with
  | [] => none
  | c :: rest =>
    if isDigit c && numTailOk rest then some (digitsVal (l.filter (fun d => d ≠ '_')))
    else none

/-- Strip leading and trailing Python whitespace from a character list. -/
def pyStrip (l : List Char) : List Char :=
  ((l.dropWhile isPySpace).reverse.dropWhile isPySpace).reverse

/-- Python `int(s)` on a string: optional surrounding whitespace,
optional sign, ASCII decimal digits with underscore grouping; `none`
models the `ValueError` path. (Non-ASCII digits and base prefixes are
not modelled; no input in this development uses them.) -/
def pyInt (s : String) : Option Int :=
  match pyStrip s.toList with
  | [] => none
  | '+' :: rest => (natOfDigits rest).map (fun n => Int.ofNat n)
  | '-' :: rest => (natOfDigits rest).map (fun n => -(Int.ofNat n : Int))
  | l => (natOfDigits l).map (fun n => Int.ofNat n)

/-- The parsed CLI arguments: the `argparse.Namespace` produced by
`parse_cli_args`, with `None` for flags that were not supplied. The
port is already an integer because the flag is declared `type=int`. -/
structure Args where
  transport : Option String
  host : Option String
  port : Option Int
deriving Repr, DecidableEq

/-- argparse's negative-number test: a token such as `-5` counts as a
value, not an option (the decimal-point form is not modelled; no input
here uses it). -/
def isNegNum (s : String) : Bool :=
  match s.toList with
  | '-' :: c :: cs => (c :: cs).all isDigit
  | _ => false

/-- A token that argparse treats as an option rather than as the value
of the preceding flag: starts with `-`, is not the bare `-`, and does
not look like a negative number. -/
def isOptionLike (s : String) : Bool :=
  (match s.toList with | '-' :: _ => true | _ => false) && s ≠ "-" && !(isNegNum s)

/-- Split a `--flag=value` token at its first `=`; a token without `=`
carries no inline value. -/
def splitEq (a : String) : String × Option String :=
  let l := a.toList
  let flag := l.takeWhile (fun c => c ≠ '=')
  if flag.length = l.length then (a, none)
  else (String.mk flag, some (String.mk (l.drop (flag.length + 1))))

/-- The loop of argparse argument consumption for the parser built in
`parse_cli_args`: the three declared flags, each taking one value either
inline (`--flag=v`) or as the next token; an unsupported `--transport`
choice, a non-integer `--port` value, a flag without a value, and an
unrecognized token are usage errors (argparse prints usage and raises
`SystemExit(2)`). Abbreviated flags and the automatic `--help` are not
modelled; no input in this development uses them. -/
def parseArgsGo (acc : Args) : List String → Except String Args
  | [] => Except.ok acc
  | a :: rest =>
    let fv := splitEq a
    if fv.fst = "--transport" then
      match fv.snd, rest with
      | some v, r =>
        if v ∈ sortedTransports then parseArgsGo { acc with transport := some v } r
        else Except.error ("argument --transport: invalid choice: " ++ v)
      | none, v :: r =>
        if isOptionLike v then Except.error "argument --transport: expected one argument"
        else if v ∈ sortedTransports then parseArgsGo { acc with transport := some v } r
        else Except.error ("argument --transport: invalid choice: " ++ v)
      | none, [] => Except.error "argument --transport: expected one argument"
    else if fv.fst = "--host" then
      match fv.snd, rest with
      | some v, r => parseArgsGo { acc with host := some v } r
      | none, v :: r =>
        if isOptionLike v then Except.error "argument --host: expected one argument"
        else parseArgsGo { acc with host := some v } r
      | none, [] => Except.error "argument --host: expected one argument"
    else if fv.fst = "--port" then
      match fv.snd, rest with
      | some v, r =>
        match pyInt v with
        | some n => parseArgsGo { acc with port := some n } r
        | none => Except.error ("argument --port: invalid int value: " ++ v)
      | none, v :: r =>
        if isOptionLike v then Except.error "argument --port: expected one argument"
        else
          match pyInt v with
          | some n => parseArgsGo { acc with port := some n } r
          | none => Except.error ("argument --port: invalid int value: " ++ v)
      | none, [] => Except.error "argument --port: expected one argument"
    else Except.error ("unrecognized arguments: " ++ a)

/-- `parse_cli_args(argv)`: parse the argument vector starting from an
empty namespace. -/
def parseCliArgs (argv : List String) : Except String Args :=
  parseArgsGo { transport := none, host := none, port := none } argv

/-- `_first_env(*names)`: the value of the first name bound to a
non-empty string, else `none`. -/
def firstEnv (env : Env) : List String → Option String
  | [] => none
  | n :: rest =>
    match envTruthy env n with
    | some v => some v
    | none => firstEnv env rest

/-- The port source handed to `_parse_port`: the CLI integer when the
flag was given, else the raw environment string. -/
def portSourceStr (v : Int ⊕ String) : String :=
  match v with
  | Sum.inl i => toString i
  | Sum.inr s => s

/-- `_parse_port(value)` with its (never overridden) default of
`DEFAULT_HTTP_PORT`: `None` yields the default silently; a string that
`int()` rejects yields the default with an "Invalid MCP port" warning;
an integer outside `0 < port < 65536` yields the default with an
"out of range" warning. Returns the port and the stderr warnings. -/
def parsePort (value : Option (Int ⊕ String)) : Int × List String :=
  match value with
  | none => (DEFAULT_HTTP_PORT, [])
  | some src =>
    match (match src with | Sum.inl i => some i | Sum.inr s => pyInt s) with
    | none =>
      (DEFAULT_HTTP_PORT,
        ["[WARN] Invalid MCP port \x27" ++ portSourceStr src ++ "\x27, falling back to "
          ++ toString DEFAULT_HTTP_PORT])
    | some p =>
      if 0 < p ∧ p < 65536 then (p, [])
      else
        (DEFAULT_HTTP_PORT,
          ["[WARN] MCP port \x27" ++ toString p ++ "\x27 out of range, falling back to "
            ++ toString DEFAULT_HTTP_PORT])

/-- The resolved runtime options record. -/
structure RuntimeOptions where
  transport : String
  host : String
  port : Int
deriving Repr, DecidableEq

/-- The environment names consulted for the host, in declared order. -/
def hostEnvVars : List String := ["MCP_HTTP_HOST", "MCP_SERVER_HOST", "MCP_HOST"]

/-- The environment names consulted for the port, in declared order. -/
def portEnvVars : List String := ["MCP_HTTP_PORT", "MCP_SERVER_PORT", "MCP_PORT"]

/-- `resolve_runtime_options(args)`: transport from CLI, else
`MCP_TRANSPORT`, else `stdio`, normalized to `stdio` with a warning when
not in `VALID_TRANSPORTS`; host from CLI, else the host environment
cascade, else the default; port source from CLI (whenever supplied),
else the port environment cascade, then `_parse_port`. Returns the
options and the stderr warnings in emission order. -/
def resolveRuntimeOptions (args : Args) (env : Env) : RuntimeOptions × List String :=
  let envTransport := getenv env "MCP_TRANSPORT"
  let t0 := orStr args.transport (orStr envTransport "stdio")
  let tw : String × List String :=
    if t0 ∈ VALID_TRANSPORTS then (t0, [])
    else
      ("stdio",
        ["[WARN] Unsupported MCP transport \x27" ++ t0 ++ "\x27, falling back to \x27stdio\x27"])
  let host := orStr args.host (orStr (firstEnv env hostEnvVars) DEFAULT_HTTP_HOST)
  let portSource : Option (Int ⊕ String) :=
    match args.port with
    | some p => some (Sum.inl p)
    | none => (firstEnv env portEnvVars).map Sum.inr
  let pw := parsePort portSource
  ({ transport := tw.fst, host := host, port := pw.fst }, tw.snd ++ pw.snd)

/-- Python `pat in s` on strings: `pat` occurs as a contiguous
substring of `s`. -/
def containsStr (s pat : String) : Bool :=
  (List.range (s.toList.length + 1)).any
    (fun i => ((s.toList.drop i).take pat.toList.length) = pat.toList)

/-- The display form of a required variable's value: password-like names
(containing `PASSWORD`) are masked by a run of `*` of the same length;
other values are shown verbatim. -/
def displayValue (var value : String) : String :=
  if containsStr var "PASSWORD" then String.mk (List.replicate value.length '*')
  else value

/-- `required_vars` from `setup_environment`. -/
def REQUIRED_VARS : List String := ["OTRS_BASE_URL", "OTRS_USERNAME", "OTRS_PASSWORD"]

/-- `optional_vars` from `setup_environment`. -/
def OPTIONAL_VARS : List String :=
  ["OTRS_VERIFY_SSL", "OTRS_DEFAULT_QUEUE", "OTRS_DEFAULT_STATE", "OTRS_DEFAULT_PRIORITY"]

/-- `setup_environment(options)`: walks the required variables, printing
present ones (masked when password-like) and collecting missing or empty
ones; on any missing it prints the missing list and remediation text and
returns `False` at once; otherwise it prints the optional variables
(`os.getenv(var, "default")`) and the resolved runtime settings and
returns `True`. Result: the boolean and the stdout lines, one element
per `print` call (embedded newlines kept verbatim). -/
def setupEnvironment (options : RuntimeOptions) (env : Env) : Bool × List String :=
  let header := ["[CONFIG] OTRS MCP Server Configuration:"]
  let step := REQUIRED_VARS.foldl
    (fun (acc : List String × List String) var =>
      match envTruthy env var with
      | none => (acc.fst ++ [var], acc.snd)
      | some v => (acc.fst, acc.snd ++ ["  " ++ var ++ ": " ++ displayValue var v]))
    ([], [])
  let missing := step.fst
  let varLines := step.snd
  if missing ≠ [] then
    (false, header ++ varLines ++
      ["[ERROR] Missing required environment variables: " ++ String.intercalate ", " missing,
       "\n[INFO] Set these environment variables:",
       "  export OTRS_BASE_URL=\x27https://your-otrs-server/otrs/nph-genericinterface.pl/Webservice/TestInterface\x27",
       "  export OTRS_USERNAME=\x27your-username\x27",
       "  export OTRS_PASSWORD=\x27your-password\x27",
       "  export OTRS_VERIFY_SSL=\x27false\x27  # Optional, for self-signed certificates"])
  else
    let optLines := OPTIONAL_VARS.map
      (fun var => "  " ++ var ++ ": " ++ (getenv env var).getD "default")
    (true, header ++ varLines ++ optLines ++
      ["\n[CONFIG] MCP Runtime Settings:",
       "  MCP_TRANSPORT: " ++ options.transport,
       "  MCP_HOST: " ++ options.host,
       "  MCP_PORT: " ++ toString options.port] ++
      (if options.transport = "stdio" then ["  (host/port affect HTTP transports only)"] else []))

/-- The fate of the process in `run_server`:
`usageError` — argparse rejected the arguments and raised
`SystemExit(2)` before any resolution; `exited 1` — environment
validation failed and `sys.exit(1)` ran, so `apply_runtime_settings`
and `mcp.run` were never invoked; `started` — the resolved host and
port were pushed into `mcp.settings` and `mcp.run` was invoked with the
resolved transport. -/
inductive RunOutcome where
  | usageError (msg : String)
  | exited (code : Nat)
  | started (options : RuntimeOptions)
deriving Repr, DecidableEq

/-- `run_server(argv)`: parse the CLI, resolve runtime options, validate
the environment, and either exit with status 1 or push settings and
start the server. -/
def runServer (argv : List String) (env : Env) : RunOutcome :=
  match parseCliArgs argv with
  | Except.error msg => RunOutcome.usageError msg
  | Except.ok args =>
    let options := (resolveRuntimeOptions args env).fst
    if (setupEnvironment options env).fst then RunOutcome.started options
    else RunOutcome.exited 1

/-! ### Helper lemmas -/

lemma parsePort_range (v : Option (Int ⊕ String)) :
    0 < (parsePort v).fst ∧ (parsePort v).fst < 65536 := by
  rcases v with _ | src
  · exact ⟨by decide, by decide⟩
  · rcases src with i | s
    · by_cases hp : 0 < i ∧ i < 65536
      · simp [parsePort, hp]
      · simp [parsePort, hp, DEFAULT_HTTP_PORT]
    · rcases h : pyInt s with _ | p
      · simp [parsePort, h, DEFAULT_HTTP_PORT]
      · by_cases hp : 0 < p ∧ p < 65536
        · simp [parsePort, h, hp]
        · simp [parsePort, h, hp, DEFAULT_HTTP_PORT]

lemma envTruthy_eq_none_iff (env : Env) (n : String) :
    envTruthy env n = none ↔ (getenv env n = none ∨ getenv env n = some "") := by
  unfold envTruthy
  rcases h : getenv env n with _ | v
  · simp
  · by_cases hv : v = "" <;> simp [hv]

lemma envTruthy_some_ne {env : Env} {n v : String} (h : envTruthy env n = some v) :
    v ≠ "" := by
  unfold envTruthy at h
  rcases hg : getenv env n with _ | w <;> rw [hg] at h
  · cases h
  · by_cases hw : w = ""
    · simp [hw] at h
    · simp [hw] at h
      subst h
      exact hw

lemma setupEnvironment_false_iff (options : RuntimeOptions) (env : Env) :
    (setupEnvironment options env).fst = false ↔
      (envTruthy env "OTRS_BASE_URL" = none ∨ envTruthy env "OTRS_USERNAME" = none ∨
        envTruthy env "OTRS_PASSWORD" = none) := by
  rcases hb : envTruthy env "OTRS_BASE_URL" with _ | vb <;>
  rcases hu : envTruthy env "OTRS_USERNAME" with _ | vu <;>
  rcases hp : envTruthy env "OTRS_PASSWORD" with _ | vp <;>
    simp [setupEnvironment, REQUIRED_VARS, hb, hu, hp]

lemma prefixed_ne_runtimeHeader (pre d : String) (c : Char) (hp : pre.data.head? = some c)
    (hc : c ≠ '\n') : (pre ++ d = "\n[CONFIG] MCP Runtime Settings:") ↔ False := by
  simp only [iff_false]
  intro h
  have h3 : (pre ++ d).data.head? = ("\n[CONFIG] MCP Runtime Settings:" : String).data.head? := by
    rw [h]
  rw [String.data_append] at h3
  rcases hd : pre.data with _ | ⟨c0, l⟩
  · rw [hd] at hp
    cases hp
  · rw [hd] at hp h3
    simp only [List.head?_cons, Option.some.injEq] at hp
    subst hp
    have h4 : (("\n[CONFIG] MCP Runtime Settings:" : String).data.head?) = some '\n' := rfl
    rw [h4] at h3
    simp only [List.cons_append, List.head?_cons, Option.some.injEq] at h3
    exact hc h3

lemma baseLine_ne_runtimeHeader (v : String) :
    ("  OTRS_BASE_URL: " ++ v = "\n[CONFIG] MCP Runtime Settings:") ↔ False :=
  prefixed_ne_runtimeHeader _ _ ' ' rfl (by decide)

lemma userLine_ne_runtimeHeader (v : String) :
    ("  OTRS_USERNAME: " ++ v = "\n[CONFIG] MCP Runtime Settings:") ↔ False :=
  prefixed_ne_runtimeHeader _ _ ' ' rfl (by decide)

lemma passLine_ne_runtimeHeader (v : String) :
    ("  OTRS_PASSWORD: " ++ v = "\n[CONFIG] MCP Runtime Settings:") ↔ False :=
  prefixed_ne_runtimeHeader _ _ ' ' rfl (by decide)

lemma errLine_ne_runtimeHeader (v : String) :
    ("[ERROR] Missing required environment variables: " ++ v
      = "\n[CONFIG] MCP Runtime Settings:") ↔ False :=
  prefixed_ne_runtimeHeader _ _ '[' rfl (by decide)

lemma runtimeHeader_ne_baseLine (v : String) :
    ("\n[CONFIG] MCP Runtime Settings:" = "  OTRS_BASE_URL: " ++ v) ↔ False := by
  rw [eq_comm]
  exact baseLine_ne_runtimeHeader v

lemma runtimeHeader_ne_userLine (v : String) :
    ("\n[CONFIG] MCP Runtime Settings:" = "  OTRS_USERNAME: " ++ v) ↔ False := by
  rw [eq_comm]
  exact userLine_ne_runtimeHeader v

lemma runtimeHeader_ne_passLine (v : String) :
    ("\n[CONFIG] MCP Runtime Settings:" = "  OTRS_PASSWORD: " ++ v) ↔ False := by
  rw [eq_comm]
  exact passLine_ne_runtimeHeader v

lemma runtimeHeader_ne_errLine (v : String) :
    ("\n[CONFIG] MCP Runtime Settings:"
      = "[ERROR] Missing required environment variables: " ++ v) ↔ False := by
  rw [eq_comm]
  exact errLine_ne_runtimeHeader v

lemma displayValue_base (v : String) : displayValue "OTRS_BASE_URL" v = v := by
  unfold displayValue
  rw [show containsStr "OTRS_BASE_URL" "PASSWORD" = false from rfl]
  simp

lemma displayValue_user (v : String) : displayValue "OTRS_USERNAME" v = v := by
  unfold displayValue
  rw [show containsStr "OTRS_USERNAME" "PASSWORD" = false from rfl]
  simp

lemma displayValue_pass (v : String) :
    displayValue "OTRS_PASSWORD" v = String.mk (List.replicate v.length '*') := by
  unfold displayValue
  rw [show containsStr "OTRS_PASSWORD" "PASSWORD" = true from rfl]
  simp

/-! ### Claim theorems -/

/-- C5: `setup_environment` returns failure exactly when at least one of
`OTRS_BASE_URL`, `OTRS_USERNAME`, `OTRS_PASSWORD` is unset or set to the
empty string. -/
theorem setup_environment_failure_iff (options : RuntimeOptions) (env : Env) :
    (setupEnvironment options env).fst = false ↔
      ((getenv env "OTRS_BASE_URL" = none ∨ getenv env "OTRS_BASE_URL" = some "") ∨
       (getenv env "OTRS_USERNAME" = none ∨ getenv env "OTRS_USERNAME" = some "") ∨
       (getenv env "OTRS_PASSWORD" = none ∨ getenv env "OTRS_PASSWORD" = some "")) := by
  rw [setupEnvironment_false_iff, envTruthy_eq_none_iff, envTruthy_eq_none_iff,
    envTruthy_eq_none_iff]

/-- C6: whenever a required credential variable is unset or empty, and
the CLI arguments parse, `run_server` exits with status 1: the settings
are never pushed and `mcp.run` is never invoked. -/
theorem missing_credentials_exit (argv : List String) (env : Env) (args : Args)
    (hp : parseCliArgs argv = Except.ok args)
    (hm : envTruthy env "OTRS_BASE_URL" = none ∨ envTruthy env "OTRS_USERNAME" = none ∨
          envTruthy env "OTRS_PASSWORD" = none) :
    runServer argv env = RunOutcome.exited 1 := by
  unfold runServer
  rw [hp]
  have hfail := (setupEnvironment_false_iff (resolveRuntimeOptions args env).fst env).mpr hm
  simp [hfail]

/-- C6 witness: with no CLI arguments and an empty environment the
process exits with status 1. -/
theorem missing_credentials_exit_witness : runServer [] [] = RunOutcome.exited 1 :=
  missing_credentials_exit [] [] { transport := none, host := none, port := none }
    rfl (Or.inl rfl)

/-- C7: every resolved options record has a transport from the valid set
and a port strictly between 0 and 65536, whatever the arguments and
environment. -/
theorem resolved_options_invariant (args : Args) (env : Env) :
    (resolveRuntimeOptions args env).fst.transport ∈ VALID_TRANSPORTS ∧
    0 < (resolveRuntimeOptions args env).fst.port ∧
    (resolveRuntimeOptions args env).fst.port < 65536 := by
  refine ⟨?_, (parsePort_range _).1, (parsePort_range _).2⟩
  by_cases h : orStr args.transport (orStr (getenv env "MCP_TRANSPORT") "stdio")
      ∈ VALID_TRANSPORTS
  · simp [resolveRuntimeOptions, h]
  · simp [resolveRuntimeOptions, h]
    decide

/-- C9: the displayed value of a password-like variable (name containing
`PASSWORD`) with a non-empty raw value is a mask of exactly the raw
value's character length. -/
theorem password_mask_length (var value : String) (_hv : value ≠ "")
    (hpw : containsStr var "PASSWORD" = true) :
    (displayValue var value).length = value.length := by
  unfold displayValue
  rw [hpw]
  simp [String.length_mk]

/-- C9 witness: the mask for `OTRS_PASSWORD` set to `hunter2` has the
raw value's length. -/
theorem password_mask_length_witness :
    (displayValue "OTRS_PASSWORD" "hunter2").length = ("hunter2" : String).length :=
  password_mask_length "OTRS_PASSWORD" "hunter2" (by decide) (by decide)

/-- C10: a CLI-supplied port makes the resolved port depend only on that
integer — the three port environment variables are ignored — and in
particular CLI port 0 with a valid `MCP_PORT` resolves to the default
8000, not to the environment value. -/
theorem cli_port_ignores_env (args : Args) (env : Env) (p : Int)
    (h : args.port = some p) :
    (resolveRuntimeOptions args env).fst.port = (parsePort (some (Sum.inl p))).fst ∧
    (resolveRuntimeOptions { transport := none, host := none, port := some 0 }
        [("MCP_PORT", "9999")]).fst.port = 8000 := by
  constructor
  · simp [resolveRuntimeOptions, h]
  · rfl

/-- C10 witness: CLI port 1234 resolves from the CLI integer alone even
with `MCP_HTTP_PORT` set. -/
theorem cli_port_ignores_env_witness :
    (resolveRuntimeOptions { transport := none, host := none, port := some 1234 }
        [("MCP_HTTP_PORT", "9999")]).fst.port = (parsePort (some (Sum.inl 1234))).fst ∧
    (resolveRuntimeOptions { transport := none, host := none, port := some 0 }
        [("MCP_PORT", "9999")]).fst.port = 8000 :=
  cli_port_ignores_env { transport := none, host := none, port := some 1234 }
    [("MCP_HTTP_PORT", "9999")] 1234 rfl

/-- C4: a port in 1..65535 supplied on the CLI resolves to itself with
any environment (CLI wins over all three names); a value in range
supplied through `MCP_HTTP_PORT`, or through `MCP_SERVER_PORT` with
`MCP_HTTP_PORT` unset/empty, or through `MCP_PORT` with the two earlier
names unset/empty, resolves to itself — first non-empty name in
declared order wins. -/
theorem port_resolution_precedence :
    (∀ (args : Args) (env : Env) (p : Int), args.port = some p →
        0 < p → p < 65536 → (resolveRuntimeOptions args env).fst.port = p) ∧
    (∀ (args : Args) (env : Env) (s : String) (p : Int), args.port = none →
        envTruthy env "MCP_HTTP_PORT" = some s → pyInt s = some p →
        0 < p → p < 65536 → (resolveRuntimeOptions args env).fst.port = p) ∧
    (∀ (args : Args) (env : Env) (s : String) (p : Int), args.port = none →
        envTruthy env "MCP_HTTP_PORT" = none → envTruthy env "MCP_SERVER_PORT" = some s →
        pyInt s = some p →
        0 < p → p < 65536 → (resolveRuntimeOptions args env).fst.port = p) ∧
    (∀ (args : Args) (env : Env) (s : String) (p : Int), args.port = none →
        envTruthy env "MCP_HTTP_PORT" = none → envTruthy env "MCP_SERVER_PORT" = none →
        envTruthy env "MCP_PORT" = some s → pyInt s = some p →
        0 < p → p < 65536 → (resolveRuntimeOptions args env).fst.port = p) := by
  refine ⟨?_, ?_, ?_, ?_⟩
  · intro args env p hport h1 h2
    simp [resolveRuntimeOptions, parsePort, hport, h1, h2]
  · intro args env s p hport e1 hs h1 h2
    simp [resolveRuntimeOptions, parsePort, portEnvVars, firstEnv, hport, e1, hs, h1, h2]
  · intro args env s p hport e1 e2 hs h1 h2
    simp [resolveRuntimeOptions, parsePort, portEnvVars, firstEnv, hport, e1, e2, hs, h1, h2]
  · intro args env s p hport e1 e2 e3 hs h1 h2
    simp [resolveRuntimeOptions, parsePort, portEnvVars, firstEnv, hport, e1, e2, e3, hs,
      h1, h2]

/-- C4 witness: the spec's worked example — no CLI arguments,
`MCP_TRANSPORT=sse`, `MCP_PORT=9999` — resolves the port to 9999. -/
theorem port_resolution_precedence_witness :
    (resolveRuntimeOptions { transport := none, host := none, port := none }
        [("MCP_TRANSPORT", "sse"), ("MCP_PORT", "9999")]).fst.port = 9999 :=
  port_resolution_precedence.2.2.2 { transport := none, host := none, port := none }
    [("MCP_TRANSPORT", "sse"), ("MCP_PORT", "9999")] "9999" 9999
    rfl rfl rfl rfl rfl (by decide) (by decide)

/-- C8 counterexample: the CLI host flag supplied with the empty string
loses to the environment — `--host ""` parses to an empty host, yet with
`MCP_HOST=example.org` the resolved host is `example.org`, so a supplied
CLI host does not always win. -/
theorem host_empty_cli_counterexample :
    parseCliArgs ["--host", ""] =
      Except.ok { transport := none, host := some "", port := none } ∧
    (resolveRuntimeOptions { transport := none, host := some "", port := none }
        [("MCP_HOST", "example.org")]).fst.host = "example.org" :=
  ⟨rfl, rfl⟩

/-- C8 (amended): a CLI host flag with a non-empty value wins over the
environment; when the flag is absent or empty, the first of
`MCP_HTTP_HOST`, `MCP_SERVER_HOST`, `MCP_HOST` holding a non-empty value
wins, in declared order; when all are unset or empty the host is
`127.0.0.1`. -/
theorem host_resolution_amended :
    (∀ (args : Args) (env : Env) (h : String), args.host = some h → h ≠ "" →
        (resolveRuntimeOptions args env).fst.host = h) ∧
    (∀ (args : Args) (env : Env) (v : String),
        (args.host = none ∨ args.host = some "") →
        envTruthy env "MCP_HTTP_HOST" = some v →
        (resolveRuntimeOptions args env).fst.host = v) ∧
    (∀ (args : Args) (env : Env) (v : String),
        (args.host = none ∨ args.host = some "") →
        envTruthy env "MCP_HTTP_HOST" = none → envTruthy env "MCP_SERVER_HOST" = some v →
        (resolveRuntimeOptions args env).fst.host = v) ∧
    (∀ (args : Args) (env : Env) (v : String),
        (args.host = none ∨ args.host = some "") →
        envTruthy env "MCP_HTTP_HOST" = none → envTruthy env "MCP_SERVER_HOST" = none →
        envTruthy env "MCP_HOST" = some v →
        (resolveRuntimeOptions args env).fst.host = v) ∧
    (∀ (args : Args) (env : Env),
        (args.host = none ∨ args.host = some "") →
        envTruthy env "MCP_HTTP_HOST" = none → envTruthy env "MCP_SERVER_HOST" = none →
        envTruthy env "MCP_HOST" = none →
        (resolveRuntimeOptions args env).fst.host = "127.0.0.1") := by
  refine ⟨?_, ?_, ?_, ?_, ?_⟩
  · intro args env h hh hne
    simp [resolveRuntimeOptions, orStr, hh, hne]
  · intro args env v hh e1
    have hv := envTruthy_some_ne e1
    rcases hh with hh | hh <;>
      simp [resolveRuntimeOptions, orStr, hostEnvVars, firstEnv, hh, e1, hv]
  · intro args env v hh e1 e2
    have hv := envTruthy_some_ne e2
    rcases hh with hh | hh <;>
      simp [resolveRuntimeOptions, orStr, hostEnvVars, firstEnv, hh, e1, e2, hv]
  · intro args env v hh e1 e2 e3
    have hv := envTruthy_some_ne e3
    rcases hh with hh | hh <;>
      simp [resolveRuntimeOptions, orStr, hostEnvVars, firstEnv, hh, e1, e2, e3, hv]
  · intro args env hh e1 e2 e3
    rcases hh with hh | hh <;>
      simp [resolveRuntimeOptions, orStr, hostEnvVars, firstEnv, hh, e1, e2, e3,
        DEFAULT_HTTP_HOST]

/-- C8 witness: a non-empty CLI host beats a set `MCP_HOST`. -/
theorem host_resolution_amended_witness :
    (resolveRuntimeOptions { transport := none, host := some "0.0.0.0", port := none }
        [("MCP_HOST", "example.org")]).fst.host = "0.0.0.0" :=
  host_resolution_amended.1 { transport := none, host := some "0.0.0.0", port := none }
    [("MCP_HOST", "example.org")] "0.0.0.0" rfl (by decide)

/-- C1 counterexample: an unsupported transport string supplied via the
CLI flag is rejected by argparse (`choices`) with a usage error — even
with full credentials present, the process never resolves a transport,
so it does not fall back to `stdio` with a warning as the claim states
for CLI-supplied strings. -/
theorem transport_cli_rejected_counterexample :
    parseCliArgs ["--transport", "foo"] =
      Except.error ("argument --transport: invalid choice: " ++ "foo") ∧
    runServer ["--transport", "foo"]
        [("OTRS_BASE_URL", "u"), ("OTRS_USERNAME", "n"), ("OTRS_PASSWORD", "p")] =
      RunOutcome.usageError ("argument --transport: invalid choice: " ++ "foo") :=
  ⟨rfl, rfl⟩

/-- C1 (amended): a supported transport supplied via the CLI flag or via
`MCP_TRANSPORT` resolves to itself; a non-empty unsupported string
supplied via `MCP_TRANSPORT` resolves to `stdio` with a warning on the
diagnostic stream (an empty value is treated as unset, default `stdio`,
no warning); an unsupported string supplied via the CLI flag is rejected
by the argument parser before resolution. -/
theorem transport_resolution_amended :
    (∀ (args : Args) (env : Env) (t : String), t ∈ VALID_TRANSPORTS →
        args.transport = some t →
        (resolveRuntimeOptions args env).fst.transport = t) ∧
    (∀ (args : Args) (env : Env) (t : String), t ∈ VALID_TRANSPORTS →
        args.transport = none → getenv env "MCP_TRANSPORT" = some t →
        (resolveRuntimeOptions args env).fst.transport = t) ∧
    (∀ (args : Args) (env : Env) (t : String), t ∉ VALID_TRANSPORTS → t ≠ "" →
        args.transport = none → getenv env "MCP_TRANSPORT" = some t →
        (resolveRuntimeOptions args env).fst.transport = "stdio" ∧
        ("[WARN] Unsupported MCP transport \x27" ++ t ++ "\x27, falling back to \x27stdio\x27")
          ∈ (resolveRuntimeOptions args env).snd) ∧
    (∀ (t : String) (rest : List String), t ∉ sortedTransports → isOptionLike t = false →
        parseCliArgs ("--transport" :: t :: rest) =
          Except.error ("argument --transport: invalid choice: " ++ t)) := by
  refine ⟨?_, ?_, ?_, ?_⟩
  · intro args env t htv hcli
    have h2 : t = "stdio" ∨ t = "sse" ∨ t = "streamable-http" := by
      simpa [VALID_TRANSPORTS] using htv
    rcases h2 with rfl | rfl | rfl <;>
      simp [resolveRuntimeOptions, orStr, hcli, VALID_TRANSPORTS]
  · intro args env t htv hcli hg
    have h2 : t = "stdio" ∨ t = "sse" ∨ t = "streamable-http" := by
      simpa [VALID_TRANSPORTS] using htv
    rcases h2 with rfl | rfl | rfl <;>
      simp [resolveRuntimeOptions, orStr, hcli, hg, VALID_TRANSPORTS]
  · intro args env t htv hne hcli hg
    simp [resolveRuntimeOptions, orStr, hcli, hg, hne, htv]
  · intro t rest ht hopt
    have hs : splitEq "--transport" = ("--transport", none) := rfl
    simp [parseCliArgs, parseArgsGo, hs, hopt, ht]

/-- C1 witness: `MCP_TRANSPORT=bogus` with no CLI flag resolves to
`stdio` with the unsupported-transport warning. -/
theorem transport_resolution_amended_witness :
    (resolveRuntimeOptions { transport := none, host := none, port := none }
        [("MCP_TRANSPORT", "bogus")]).fst.transport = "stdio" ∧
    ("[WARN] Unsupported MCP transport \x27" ++ "bogus" ++ "\x27, falling back to \x27stdio\x27")
      ∈ (resolveRuntimeOptions { transport := none, host := none, port := none }
          [("MCP_TRANSPORT", "bogus")]).snd :=
  transport_resolution_amended.2.2.1 { transport := none, host := none, port := none }
    [("MCP_TRANSPORT", "bogus")] "bogus" (by decide) (by decide) rfl rfl

/-- C3 counterexample: a non-numeric port supplied via the CLI flag is
rejected by argparse (`type=int`) with a usage error — the process never
resolves a port, so it does not fall back to 8000 with a warning as the
claim states for CLI-supplied non-numeric values. -/
theorem port_cli_nonnumeric_counterexample :
    parseCliArgs ["--port", "abc"] =
      Except.error ("argument --port: invalid int value: " ++ "abc") ∧
    runServer ["--port", "abc"]
        [("OTRS_BASE_URL", "u"), ("OTRS_USERNAME", "n"), ("OTRS_PASSWORD", "p")] =
      RunOutcome.usageError ("argument --port: invalid int value: " ++ "abc") :=
  ⟨rfl, rfl⟩

/-- C3 (amended): a CLI port that is 0, negative or ≥ 65536 resolves to
8000 with an out-of-range warning; an environment-supplied port string
that is out of range resolves to 8000 with the same warning, and one
that is non-numeric resolves to 8000 with an invalid-port warning; a
non-numeric port supplied via the CLI flag is rejected by the argument
parser before resolution. -/
theorem port_fallback_amended :
    (∀ (args : Args) (env : Env) (p : Int), args.port = some p →
        (p ≤ 0 ∨ 65536 ≤ p) →
        (resolveRuntimeOptions args env).fst.port = 8000 ∧
        ("[WARN] MCP port \x27" ++ toString p ++ "\x27 out of range, falling back to "
            ++ toString DEFAULT_HTTP_PORT) ∈ (resolveRuntimeOptions args env).snd) ∧
    (∀ (args : Args) (env : Env) (s : String) (p : Int), args.port = none →
        firstEnv env portEnvVars = some s → pyInt s = some p →
        (p ≤ 0 ∨ 65536 ≤ p) →
        (resolveRuntimeOptions args env).fst.port = 8000 ∧
        ("[WARN] MCP port \x27" ++ toString p ++ "\x27 out of range, falling back to "
            ++ toString DEFAULT_HTTP_PORT) ∈ (resolveRuntimeOptions args env).snd) ∧
    (∀ (args : Args) (env : Env) (s : String), args.port = none →
        firstEnv env portEnvVars = some s → pyInt s = none →
        (resolveRuntimeOptions args env).fst.port = 8000 ∧
        ("[WARN] Invalid MCP port \x27" ++ s ++ "\x27, falling back to "
            ++ toString DEFAULT_HTTP_PORT) ∈ (resolveRuntimeOptions args env).snd) ∧
    (∀ (s : String) (rest : List String), pyInt s = none → isOptionLike s = false →
        parseCliArgs ("--port" :: s :: rest) =
          Except.error ("argument --port: invalid int value: " ++ s)) := by
  refine ⟨?_, ?_, ?_, ?_⟩
  · intro args env p hport hrange
    have hno : ¬(0 < p ∧ p < 65536) := by omega
    simp [resolveRuntimeOptions, parsePort, portSourceStr, hport, hno, DEFAULT_HTTP_PORT]
  · intro args env s p hport hfe hs hrange
    have hno : ¬(0 < p ∧ p < 65536) := by omega
    simp [resolveRuntimeOptions, parsePort, portSourceStr, hport, hfe, hs, hno,
      DEFAULT_HTTP_PORT]
  · intro args env s hport hfe hs
    simp [resolveRuntimeOptions, parsePort, portSourceStr, hport, hfe, hs, DEFAULT_HTTP_PORT]
  · intro s rest hs hopt
    have hsp : splitEq "--port" = ("--port", none) := rfl
    simp [parseCliArgs, parseArgsGo, hsp, hopt, hs]

/-- C3 witness: the spec's worked example — CLI `--port 70000`, empty
environment — resolves the port to 8000 with the out-of-range warning. -/
theorem port_fallback_amended_witness :
    (resolveRuntimeOptions { transport := none, host := none, port := some 70000 }
        []).fst.port = 8000 ∧
    ("[WARN] MCP port \x27" ++ toString (70000 : Int) ++ "\x27 out of range, falling back to "
        ++ toString DEFAULT_HTTP_PORT)
      ∈ (resolveRuntimeOptions { transport := none, host := none, port := some 70000 }
          []).snd :=
  port_fallback_amended.1 { transport := none, host := none, port := some 70000 }
    [] 70000 rfl (by decide)

/-- C2 counterexample: with `OTRS_PASSWORD` missing, `setup_environment`
fails and its output contains neither the optional-variable lines nor
the runtime-settings block — the full summary is not printed on
validation failure. -/
theorem summary_on_failure_counterexample :
    (setupEnvironment { transport := "stdio", host := "127.0.0.1", port := 8000 }
        [("OTRS_BASE_URL", "u"), ("OTRS_USERNAME", "n")]).fst = false ∧
    ¬ ("\n[CONFIG] MCP Runtime Settings:" ∈
        (setupEnvironment { transport := "stdio", host := "127.0.0.1", port := 8000 }
          [("OTRS_BASE_URL", "u"), ("OTRS_USERNAME", "n")]).snd) ∧
    ¬ ("  OTRS_VERIFY_SSL: default" ∈
        (setupEnvironment { transport := "stdio", host := "127.0.0.1", port := 8000 }
          [("OTRS_BASE_URL", "u"), ("OTRS_USERNAME", "n")]).snd) := by
  refine ⟨?_, ?_, ?_⟩ <;> decide

/-- C2 (amended): `setup_environment` always prints the configuration
header first, and prints the runtime-settings block exactly when
validation succeeds; on failure it returns after the missing-variable
error and remediation text, without the optional-variable list or the
runtime settings. -/
theorem summary_printed_iff_valid (options : RuntimeOptions) (env : Env) :
    (setupEnvironment options env).snd.head? =
      some "[CONFIG] OTRS MCP Server Configuration:" ∧
    ("\n[CONFIG] MCP Runtime Settings:" ∈ (setupEnvironment options env).snd ↔
      (setupEnvironment options env).fst = true) := by
  rcases hb : envTruthy env "OTRS_BASE_URL" with _ | vb <;>
  rcases hu : envTruthy env "OTRS_USERNAME" with _ | vu <;>
  rcases hp : envTruthy env "OTRS_PASSWORD" with _ | vp <;>
    simp [setupEnvironment, REQUIRED_VARS, OPTIONAL_VARS, hb, hu, hp,
      displayValue_base, displayValue_user, displayValue_pass,
      baseLine_ne_runtimeHeader, userLine_ne_runtimeHeader, passLine_ne_runtimeHeader,
      errLine_ne_runtimeHeader, runtimeHeader_ne_baseLine, runtimeHeader_ne_userLine,
      runtimeHeader_ne_passLine, runtimeHeader_ne_errLine]

end OtrsMcp
